import Mathlib

/-!
Shallow embedding of the fertility-frontend client pipeline
(src/src/App.jsx, the "App" variant, and src/unnamed/part_000, the "P0"
variant).  Both variants implement the same two-stage document pipeline:
file intake with size validation, a sequential OCR call per file, string
concatenation, and a single analyze call.  Network effects are modelled by
explicit response oracles and a trace of issued requests.
-/

namespace FertilityFrontend

/-- JSON values, as delivered by the backend and consumed via res.json().
Object key order is preserved, as in JavaScript. -/
inductive Json where
  | null : Json
  | bool : Bool → Json
  | num : Int → Json
  | str : String → Json
  | arr : List Json → Json
  | obj : List (String × Json) → Json

/-- JavaScript truthiness of a JSON value (undefined is modelled as a
missing Option, handled at use sites). -/
def jsTruthy : Json → Bool
  | .null => false
  | .bool b => b
  | .num n => decide (n ≠ 0)
  | .str s => decide (s ≠ "")
  | .arr _ => true
  | .obj _ => true

mutual

/-- JavaScript string coercion, as performed by template literals. -/
def jsTemplate : Json → String
  | .null => "null"
  | .bool b => if b then "true" else "false"
  | .num n => toString n
  | .str s => s
  | .arr xs => jsTemplateList xs
  | .obj _ => "[object Object]"

/-- Array.prototype.toString: elements coerced and joined with commas,
null elements rendering as empty. -/
def jsTemplateList : List Json → String
  | [] => ""
  | [.null] => ""
  | [x] => jsTemplate x
  | .null :: y :: xs => "," ++ jsTemplateList (y :: xs)
  | x :: y :: xs => jsTemplate x ++ "," ++ jsTemplateList (y :: xs)

end

/-- First binding of a key in a JS object's field list. -/
def lookupField (k : String) : List (String × Json) → Option Json
  | [] => none
  | (k', v) :: rest => if k' = k then some v else lookupField k rest

/-- Property access data?.k : undefined (none) when data is not an object
or lacks the key. -/
def getField (j : Json) (k : String) : Option Json :=
  match j with
  | .obj fs => lookupField k fs
  | _ => none

/-- The JS expression (v || ""), where a missing value (undefined) is
falsy. -/
def jsOrEmptyStr (v : Option Json) : Json :=
  match v with
  | some j => if jsTruthy j then j else Json.str ""
  | none => Json.str ""

/-- Two-space-per-level indentation used by JSON.stringify(v, null, 2). -/
def spaces (n : Nat) : String := String.mk (List.replicate n ' ')

/-- Escape of one character inside a JSON string literal. -/
def escChar (c : Char) : String :=
  if c = '"' then "\\\""
  else if c = '\\' then "\\\\"
  else if c = '\n' then "\\n"
  else if c = '\t' then "\\t"
  else if c = '\r' then "\\r"
  else String.singleton c

/-- JSON string literal rendering. -/
def jsonQuote (s : String) : String :=
  "\"" ++ String.join (s.toList.map escChar) ++ "\""

mutual

/-- JSON.stringify(v, null, 2) at a given nesting level. -/
def jStr : Nat → Json → String
  | _, .null => "null"
  | _, .bool b => if b then "true" else "false"
  | _, .num n => toString n
  | _, .str s => jsonQuote s
  | _, .arr [] => "[]"
  | lvl, .arr (x :: xs) =>
      "[\n" ++ jArr (lvl + 1) (x :: xs) ++ "\n" ++ spaces (2 * lvl) ++ "]"
  | _, .obj [] => "\x7b\x7d"
  | lvl, .obj (p :: ps) =>
      "\x7b\n" ++ jObj (lvl + 1) (p :: ps) ++ "\n" ++ spaces (2 * lvl) ++ "\x7d"

/-- Array elements of JSON.stringify, one per line. -/
def jArr : Nat → List Json → String
  | _, [] => ""
  | lvl, [x] => spaces (2 * lvl) ++ jStr lvl x
  | lvl, x :: y :: xs =>
      spaces (2 * lvl) ++ jStr lvl x ++ ",\n" ++ jArr lvl (y :: xs)

/-- Object fields of JSON.stringify, one per line. -/
def jObj : Nat → List (String × Json) → String
  | _, [] => ""
  | lvl, [(k, v)] => spaces (2 * lvl) ++ jsonQuote k ++ ": " ++ jStr lvl v
  | lvl, (k, v) :: q :: ps =>
      spaces (2 * lvl) ++ jsonQuote k ++ ": " ++ jStr lvl v ++ ",\n" ++
        jObj lvl (q :: ps)

end

/-- JSON.stringify(data, null, 2), the pretty-printed rendering used for
error details and the analyze fallback. -/
def jsonStringifyPretty (j : Json) : String := jStr 0 j

/-- A staged file: browser File objects are identified by name and byte
size; binary content is opaque and never inspected by the client. -/
structure UFile where
  name : String
  size : Nat

/-- An HTTP response as observed by the client: status, content-type
header, the raw body text (res.text()) and its parsed form (res.json()).
The oracle supplies both renderings consistently. -/
structure Response where
  status : Nat
  contentType : String
  bodyText : String
  bodyJson : Json

/-- The fetch res.ok predicate: status in the 2xx range. -/
def resOk (r : Response) : Bool :=
  decide (200 ≤ r.status ∧ r.status ≤ 299)

/-- A network request issued by the pipeline: an OCR upload of one file,
or the single analyze call carrying the combined text. -/
inductive Request where
  | ocr : String → String → Request
  | analyze : String → String → Request

/-- Rendering of the API_URL environment value inside a template literal:
an unset variable interpolates as the string "undefined". -/
def jsUndef : Option String → String
  | none => "undefined"
  | some s => s

/-- Truthiness of API_URL as tested by part_000's run (if (!API_URL)). -/
def apiTruthy : Option String → Bool
  | none => false
  | some s => decide (s ≠ "")

/-- JS substring test s.includes(pat). -/
def strIncludes (s pat : String) : Bool := decide (2 ≤ (s.splitOn pat).length)

/-- JS s.slice(0, n). -/
def jsSlice (s : String) (n : Nat) : String := String.mk (s.toList.take n)

/-- Extraction of OCR text from a 2xx JSON body: data?.text || "",
coerced to a string by the template literal.  Both variants use exactly
this expression. -/
def ocrText (data : Json) : String := jsTemplate (jsOrEmptyStr (getField data "text"))

/-- The labelled block contributed by one file:
Document: name, blank line, extracted text, trailing newline. -/
def docBlock (f : UFile) (r : Response) : String :=
  "Document: " ++ f.name ++ "\n\n" ++ ocrText r.bodyJson ++ "\n"

/-- Error detail rendering of part_000: JSON bodies pretty-printed and
sliced to 900 characters, plain-text bodies sliced to 400. -/
def errDetails (r : Response) : String :=
  if strIncludes r.contentType "application/json" then
    jsSlice (jsonStringifyPretty r.bodyJson) 900
  else
    jsSlice r.bodyText 400

/-- Thrown OCR message of App.jsx: status plus the full, untruncated body
text from res.text(). -/
def ocrErrApp (r : Response) : String :=
  "OCR erro (" ++ toString r.status ++ "): " ++ r.bodyText

/-- Thrown OCR message of part_000: status plus the truncated details. -/
def ocrErrP0 (r : Response) : String :=
  "OCR error (" ++ toString r.status ++ "): " ++ errDetails r

/-- ocrFile of App.jsx: on non-ok the thrown message embeds the status and
the full body text; on ok, the labelled document block. -/
def ocrFileApp (f : UFile) (r : Response) : Except String String :=
  if resOk r then
    .ok (docBlock f r)
  else
    .error (ocrErrApp r)

/-- ocrFile of part_000: on non-ok the thrown message embeds the status
and the truncated body details; on ok, the labelled document block. -/
def ocrFileP0 (f : UFile) (r : Response) : Except String String :=
  if resOk r then
    .ok (docBlock f r)
  else
    .error (ocrErrP0 r)

/-- Result selection of analyzeText, common to both variants:
data?.report ? data.report : JSON.stringify(data, null, 2). -/
def analyzeValue (data : Json) : String :=
  match getField data "report" with
  | some r => if jsTruthy r then jsTemplate r else jsonStringifyPretty data
  | none => jsonStringifyPretty data

/-- Thrown analyze message of App.jsx: status plus the full body text. -/
def analyzeErrApp (r : Response) : String :=
  "Analyze erro (" ++ toString r.status ++ "): " ++ r.bodyText

/-- Thrown analyze message of part_000: status plus truncated details. -/
def analyzeErrP0 (r : Response) : String :=
  "Analyze error (" ++ toString r.status ++ "): " ++ errDetails r

/-- analyzeText of App.jsx applied to the analyze response. -/
def analyzeTextApp (r : Response) : Except String String :=
  if resOk r then
    .ok (analyzeValue r.bodyJson)
  else
    .error (analyzeErrApp r)

/-- analyzeText of part_000 applied to the analyze response. -/
def analyzeTextP0 (r : Response) : Except String String :=
  if resOk r then
    .ok (analyzeValue r.bodyJson)
  else
    .error (analyzeErrP0 r)

/-- The OCR loop of run: for (const f of files) parts.push(await ocrFile(f)).
The oracle o gives the response to the k-th issued OCR request; the trace
records each request the instant it is issued, and a thrown error aborts
the loop.  F is the variant's ocrFile. -/
def ocrLoop (F : UFile → Response → Except String String) (url : String)
    (o : Nat → Response) : List UFile → Nat → List Request × Except String (List String)
  | [], _ => ([], .ok [])
  | f :: rest, k =>
    match F f (o k) with
    | .error e => ([Request.ocr url f.name], .error e)
    | .ok b =>
      match ocrLoop F url o rest (k + 1) with
      | (rs, .ok bs) => (Request.ocr url f.name :: rs, .ok (b :: bs))
      | (rs, .error e) => (Request.ocr url f.name :: rs, .error e)

/-- The blocks the OCR loop accumulates when every response is ok. -/
def ocrBlocks (o : Nat → Response) : List UFile → Nat → List String
  | [], _ => []
  | f :: rest, k => docBlock f (o k) :: ocrBlocks o rest (k + 1)

/-- Observable outcome of one run: the requests issued in order, and the
final Report and ErrorMessage strings. -/
structure RunOutcome where
  requests : List Request
  report : String
  error : String

/-- run of App.jsx.  apiUrl is the VITE_API_URL environment value (none
when unset — the fetch URL then interpolates "undefined"; run performs no
configuration check).  o is the OCR response oracle, a the analyze
response, prevReport the Report value before the run (early return leaves
it untouched). -/
def runApp (apiUrl : Option String) (files : List UFile) (o : Nat → Response)
    (a : Response) (prevReport : String) : RunOutcome :=
  if files.isEmpty then
    ⟨[], prevReport, "Please upload at least one file"⟩
  else
    match ocrLoop ocrFileApp (jsUndef apiUrl ++ "/api/ocr") o files 0 with
    | (rs, .error e) =>
      ⟨rs, "", if e = "" then "Processing error" else e⟩
    | (rs, .ok parts) =>
      let combined := String.intercalate "\n\n" parts
      let rs := rs ++ [Request.analyze (jsUndef apiUrl ++ "/api/analyze") combined]
      match analyzeTextApp a with
      | .error e => ⟨rs, "", if e = "" then "Processing error" else e⟩
      | .ok rep => ⟨rs, rep, ""⟩

/-- run of part_000: a falsy API_URL fails with a configuration error
before any network call, the catch branch shows a generic user-safe
message (the thrown detail goes only to console.error). -/
def runP0 (apiUrl : Option String) (files : List UFile) (o : Nat → Response)
    (a : Response) (prevReport : String) : RunOutcome :=
  if ¬ apiTruthy apiUrl then
    ⟨[], prevReport, "Configuration error: missing VITE_API_URL."⟩
  else if files.isEmpty then
    ⟨[], prevReport, "Please upload at least one PDF file."⟩
  else
    match ocrLoop ocrFileP0 (jsUndef apiUrl ++ "/api/ocr") o files 0 with
    | (rs, .error _) =>
      ⟨rs, "", "We encountered a temporary processing issue. Please try again."⟩
    | (rs, .ok parts) =>
      let combined := String.intercalate "\n\n" parts
      let rs := rs ++ [Request.analyze (jsUndef apiUrl ++ "/api/analyze") combined]
      match analyzeTextP0 a with
      | .error _ => ⟨rs, "", "We encountered a temporary processing issue. Please try again."⟩
      | .ok rep => ⟨rs, rep, ""⟩

/-- The blocking error message for an oversized file. -/
def oversizeMsg (f : UFile) : String :=
  "\"" ++ f.name ++ "\" exceeds the 50MB limit."

/-- The soft-limit alert text for a large file. -/
def largeFileMsg (f : UFile) : String :=
  "\"" ++ f.name ++ "\" is large and may take up to 3 minutes to process."

/-- validateAndWarn of part_000: walks the batch in order; the first file
over 50MB aborts with its error message; files over 20MB encountered
before that point each fire one alert.  Returns (alerts fired, accepted,
error message). -/
def validateAndWarn : List UFile → List String × Bool × String
  | [] => ([], true, "")
  | f :: rest =>
    if f.size > 50 * 1024 * 1024 then
      ([], false, oversizeMsg f)
    else
      let w := if f.size > 20 * 1024 * 1024 then [largeFileMsg f] else []
      let (ws, ok, e) := validateAndWarn rest
      (w ++ ws, ok, e)

/-- Observable outcome of one intake action: the FileList, the
ErrorMessage, and the alert notifications fired, in order. -/
structure IntakeOutcome where
  files : List UFile
  error : String
  alerts : List String

/-- handleFileSelect of part_000 (handleDrop is identical after the
event-specific extraction): empty selection returns early; otherwise the
error is cleared, the batch validated, and on success appended. -/
def handleFileSelectP0 (prev : List UFile) (prevError : String)
    (selected : List UFile) : IntakeOutcome :=
  if selected.isEmpty then
    ⟨prev, prevError, []⟩
  else
    match validateAndWarn selected with
    | (ws, true, _) => ⟨prev ++ selected, "", ws⟩
    | (ws, false, e) => ⟨prev, e, ws⟩

/-- The inline validation loop of App.jsx's handleFileSelect: on the first
file over 50MB it sets the error and returns (some message); otherwise it
alerts per large file and continues. -/
def appValidateLoop : List UFile → List String × Option String
  | [] => ([], none)
  | f :: rest =>
    if f.size > 50 * 1024 * 1024 then
      ([], some (oversizeMsg f))
    else
      let w := if f.size > 20 * 1024 * 1024 then [largeFileMsg f] else []
      let (ws, e) := appValidateLoop rest
      (w ++ ws, e)

/-- handleFileSelect of App.jsx (handleDrop identical): the loop either
aborts with the error set, or the batch is appended and the error
cleared. -/
def handleFileSelectApp (prev : List UFile) (prevError : String)
    (selected : List UFile) : IntakeOutcome :=
  if selected.isEmpty then
    ⟨prev, prevError, []⟩
  else
    match appValidateLoop selected with
    | (ws, some e) => ⟨prev, e, ws⟩
    | (ws, none) => ⟨prev ++ selected, "", ws⟩

/-- Modelled from the spec (refinement comparison only): the prioritized
field-name extraction the spec describes for OCR responses — try text,
extractedText, result, parsedText in order and use the first present
non-empty value. -/
def specClaimExtract (data : Json) : String :=
  match ["text", "extractedText", "result", "parsedText"].filterMap
      (fun k => match getField data k with
        | some (.str s) => if s = "" then none else some s
        | _ => none) with
  | s :: _ => s
  | [] => ""

/-! Concrete fixtures used by witnesses and counterexamples. -/

/-- A 2xx OCR response whose body is the JSON object with text "foo". -/
def respFoo : Response :=
  ⟨200, "application/json", "\x7b\"text\":\"foo\"\x7d", Json.obj [("text", Json.str "foo")]⟩

/-- A 2xx OCR response whose body is the JSON object with text "bar". -/
def respBar : Response :=
  ⟨200, "application/json", "\x7b\"text\":\"bar\"\x7d", Json.obj [("text", Json.str "bar")]⟩

/-- A 2xx OCR response whose JSON body is the empty object: no text
field. -/
def respEmptyObj : Response :=
  ⟨200, "application/json", "\x7b\x7d", Json.obj []⟩

/-- A 2xx analyze response carrying a report string. -/
def respReport : Response :=
  ⟨200, "application/json", "\x7b\"report\":\"ok\"\x7d", Json.obj [("report", Json.str "ok")]⟩

/-- A 2xx analyze response whose report field is the empty string. -/
def respReportEmpty : Response :=
  ⟨200, "application/json", "\x7b\"report\":\"\"\x7d", Json.obj [("report", Json.str "")]⟩

/-- A 500 plain-text failure response with a short body. -/
def respFail : Response := ⟨500, "text/plain", "oops", Json.null⟩

/-- A 600-character plain-text body, longer than the 400-character
truncation bound the spec describes. -/
def longBody : String := String.mk (List.replicate 600 'a')

/-- A 500 plain-text failure response with the 600-character body. -/
def respFailLong : Response := ⟨500, "text/plain", longBody, Json.null⟩

/-- A small staged file fixture. -/
def cfile : UFile := ⟨"a.pdf", 5⟩

/-- An OCR body that carries only the alternate field name extractedText,
no text field. -/
def altBody : Json := Json.obj [("extractedText", Json.str "foo")]

/-! Helper lemmas. -/

/-- A string with a nonempty first component of a four-part concatenation
is nonempty. -/
theorem msg4_ne_empty (a b c d : String) (ha : a.length ≠ 0) :
    a ++ b ++ c ++ d ≠ "" := by
  intro h
  have h2 := congrArg String.length h
  simp only [String.length_append] at h2
  have h0 : ("" : String).length = 0 := rfl
  omega

/-- The JS slice never yields more characters than requested. -/
theorem jsSlice_length_le (s : String) (n : Nat) : (jsSlice s n).length ≤ n := by
  have h : (jsSlice s n).length = (s.toList.take n).length := rfl
  rw [h, List.length_take]
  exact Nat.min_le_left _ _

/-- Both variants' ocrFile succeed with the document block on a 2xx
response. -/
theorem ocrFile_ok_block (F : UFile → Response → Except String String)
    (hF : F = ocrFileApp ∨ F = ocrFileP0)
    (f : UFile) (r : Response) (h : resOk r = true) :
    F f r = .ok (docBlock f r) := by
  rcases hF with rfl | rfl <;> simp [ocrFileApp, ocrFileP0, h]

/-- When every response consulted is 2xx, the OCR loop issues one request
per file in list order and accumulates the document blocks. -/
theorem ocrLoop_ok (F : UFile → Response → Except String String) (url : String)
    (o : Nat → Response) (files : List UFile) (k : Nat)
    (hF : F = ocrFileApp ∨ F = ocrFileP0)
    (h : ∀ i, i < files.length → resOk (o (k + i)) = true) :
    ocrLoop F url o files k =
      (files.map (fun f => Request.ocr url f.name), .ok (ocrBlocks o files k)) := by
  induction files generalizing k with
  | nil => simp [ocrLoop, ocrBlocks]
  | cons f rest ih =>
    have h0 : resOk (o k) = true := by
      have := h 0 (by simp)
      simpa using this
    have hrest : ∀ i, i < rest.length → resOk (o (k + 1 + i)) = true := by
      intro i hi
      have := h (i + 1) (by simpa using Nat.succ_lt_succ hi)
      have harith : k + (i + 1) = k + 1 + i := by omega
      rwa [harith] at this
    simp only [ocrLoop, ocrFile_ok_block F hF f (o k) h0, ih (k + 1) hrest,
      ocrBlocks, List.map]

/-- When the m-th consulted response is the first non-2xx one, the OCR
loop issues requests only for the first m+1 files and aborts with that
file's error. -/
theorem ocrLoop_fail (F : UFile → Response → Except String String) (url : String)
    (errF : UFile → Response → String)
    (o : Nat → Response) (files : List UFile) (k m : Nat)
    (hF : F = ocrFileApp ∨ F = ocrFileP0)
    (hFe : ∀ f r, resOk r = false → F f r = .error (errF f r))
    (hm : m < files.length)
    (hok : ∀ i, i < m → resOk (o (k + i)) = true)
    (hfail : resOk (o (k + m)) = false) :
    ocrLoop F url o files k =
      ((files.take (m + 1)).map (fun f => Request.ocr url f.name),
        .error (errF (files.get ⟨m, hm⟩) (o (k + m)))) := by
  induction files generalizing k m with
  | nil => simp at hm
  | cons f rest ih =>
    cases m with
    | zero =>
      have hfail0 : resOk (o k) = false := by simpa using hfail
      simp only [ocrLoop, hFe f (o k) hfail0, List.take, List.map, List.get,
        Nat.add_zero]
    | succ j =>
      have h0 : resOk (o k) = true := by
        have := hok 0 (Nat.succ_pos j)
        simpa using this
      have hok' : ∀ i, i < j → resOk (o (k + 1 + i)) = true := by
        intro i hi
        have := hok (i + 1) (Nat.succ_lt_succ hi)
        have harith : k + (i + 1) = k + 1 + i := by omega
        rwa [harith] at this
      have hfail' : resOk (o (k + 1 + j)) = false := by
        have harith : k + (j + 1) = k + 1 + j := by omega
        rwa [harith] at hfail
      have hj : j < rest.length := Nat.lt_of_succ_lt_succ hm
      simp only [ocrLoop, ocrFile_ok_block F hF f (o k) h0, ih (k + 1) j hj hok' hfail',
        List.take, List.map, List.get]
      have harith : k + 1 + j = k + (j + 1) := by omega
      rw [harith]

/-- The thrown App.jsx OCR message is never the empty string. -/
theorem ocrErrApp_ne_empty (r : Response) : ocrErrApp r ≠ "" := by
  unfold ocrErrApp
  exact msg4_ne_empty _ _ _ _ (by decide)

/-- App.jsx run with a nonempty list and all-2xx OCR responses issues one
OCR request per file, in order, then the single analyze request. -/
theorem runApp_requests_ok (u : Option String) (files : List UFile)
    (o : Nat → Response) (a : Response) (pR : String) (hne : files ≠ [])
    (hok : ∀ i, i < files.length → resOk (o i) = true) :
    (runApp u files o a pR).requests =
      files.map (fun f => Request.ocr (jsUndef u ++ "/api/ocr") f.name) ++
        [Request.analyze (jsUndef u ++ "/api/analyze")
          (String.intercalate "\n\n" (ocrBlocks o files 0))] := by
  have hne' : files.isEmpty = false := by
    cases files with
    | nil => exact absurd rfl hne
    | cons f fs => rfl
  have hloop := ocrLoop_ok ocrFileApp (jsUndef u ++ "/api/ocr") o files 0 (Or.inl rfl)
    (by intro i hi; simpa using hok i hi)
  simp only [runApp, hne', Bool.false_eq_true, if_false, hloop]
  cases hA : analyzeTextApp a <;> simp

/-- part_000 run, when configured, with a nonempty list and all-2xx OCR
responses issues one OCR request per file, in order, then the analyze
request. -/
theorem runP0_requests_ok (u : Option String) (files : List UFile)
    (o : Nat → Response) (a : Response) (pR : String)
    (hu : apiTruthy u = true) (hne : files ≠ [])
    (hok : ∀ i, i < files.length → resOk (o i) = true) :
    (runP0 u files o a pR).requests =
      files.map (fun f => Request.ocr (jsUndef u ++ "/api/ocr") f.name) ++
        [Request.analyze (jsUndef u ++ "/api/analyze")
          (String.intercalate "\n\n" (ocrBlocks o files 0))] := by
  have hne' : files.isEmpty = false := by
    cases files with
    | nil => exact absurd rfl hne
    | cons f fs => rfl
  have hloop := ocrLoop_ok ocrFileP0 (jsUndef u ++ "/api/ocr") o files 0 (Or.inr rfl)
    (by intro i hi; simpa using hok i hi)
  simp only [runP0, hu, hne', Bool.false_eq_true, if_false, not_true, hloop]
  cases hA : analyzeTextP0 a <;> simp

/-- App.jsx run aborted by the first failing OCR response: requests stop
at the failing file, the report stays empty, and the thrown message is
surfaced as the error. -/
theorem runApp_fail_outcome (u : Option String) (files : List UFile)
    (o : Nat → Response) (a : Response) (pR : String) (k : Nat)
    (hk : k < files.length)
    (hprev : ∀ j, j < k → resOk (o j) = true)
    (hfail : resOk (o k) = false) :
    runApp u files o a pR =
      ⟨(files.take (k + 1)).map (fun f => Request.ocr (jsUndef u ++ "/api/ocr") f.name),
        "", ocrErrApp (o k)⟩ := by
  have hne' : files.isEmpty = false := by
    cases files with
    | nil => simp at hk
    | cons f fs => rfl
  have hloop := ocrLoop_fail ocrFileApp (jsUndef u ++ "/api/ocr")
    (fun _ r => ocrErrApp r) o files 0 k (Or.inl rfl)
    (by intro f r hr; simp [ocrFileApp, hr]) hk
    (by intro i hi; simpa using hprev i hi) (by simpa using hfail)
  simp only [Nat.zero_add] at hloop
  simp only [runApp, hne', Bool.false_eq_true, if_false, hloop]
  rw [if_neg (ocrErrApp_ne_empty (o k))]

/-- part_000 run aborted by the first failing OCR response: requests stop
at the failing file, the report stays empty, and the generic user-safe
message is shown. -/
theorem runP0_fail_outcome (u : Option String) (files : List UFile)
    (o : Nat → Response) (a : Response) (pR : String) (k : Nat)
    (hu : apiTruthy u = true) (hk : k < files.length)
    (hprev : ∀ j, j < k → resOk (o j) = true)
    (hfail : resOk (o k) = false) :
    runP0 u files o a pR =
      ⟨(files.take (k + 1)).map (fun f => Request.ocr (jsUndef u ++ "/api/ocr") f.name),
        "", "We encountered a temporary processing issue. Please try again."⟩ := by
  have hne' : files.isEmpty = false := by
    cases files with
    | nil => simp at hk
    | cons f fs => rfl
  have hloop := ocrLoop_fail ocrFileP0 (jsUndef u ++ "/api/ocr")
    (fun _ r => ocrErrP0 r) o files 0 k (Or.inr rfl)
    (by intro f r hr; simp [ocrFileP0, hr]) hk
    (by intro i hi; simpa using hprev i hi) (by simpa using hfail)
  simp only [Nat.zero_add] at hloop
  simp only [runP0, hu, hne', Bool.false_eq_true, if_false, not_true, hloop]

/-- Both intake validation loops on an all-accepted batch: no error, and
exactly one alert per file over the 20MB soft limit, in order. -/
theorem loops_accept (sel : List UFile)
    (hall : ∀ f ∈ sel, f.size ≤ 52428800) :
    appValidateLoop sel =
      ((sel.filter (fun f => decide (20971520 < f.size))).map largeFileMsg, none) ∧
    validateAndWarn sel =
      ((sel.filter (fun f => decide (20971520 < f.size))).map largeFileMsg, true, "") := by
  induction sel with
  | nil => simp [appValidateLoop, validateAndWarn]
  | cons f rest ih =>
    have hf : f.size ≤ 52428800 := hall f (by simp)
    have hf' : ¬ (f.size > 50 * 1024 * 1024) := by omega
    obtain ⟨h1, h2⟩ := ih (fun g hg => hall g (by simp [hg]))
    by_cases h20 : 20971520 < f.size
    · have h20' : f.size > 20 * 1024 * 1024 := by omega
      simp [appValidateLoop, validateAndWarn, hf', h20', h1, h2, h20]
    · have h20' : ¬ (f.size > 20 * 1024 * 1024) := by omega
      simp [appValidateLoop, validateAndWarn, hf', h20', h1, h2, h20]

/-- Both intake validation loops on a batch containing an oversized file:
rejection with the message naming the first oversized file. -/
theorem loops_oversize (sel : List UFile)
    (h : ∃ f, f ∈ sel ∧ 52428800 < f.size) :
    ∃ g, g ∈ sel ∧ 52428800 < g.size ∧
      (∃ ws, appValidateLoop sel = (ws, some (oversizeMsg g))) ∧
      (∃ ws, validateAndWarn sel = (ws, false, oversizeMsg g)) := by
  induction sel with
  | nil =>
    obtain ⟨f, hf, _⟩ := h
    simp at hf
  | cons f rest ih =>
    by_cases hf : f.size > 50 * 1024 * 1024
    · refine ⟨f, by simp, by omega, ⟨[], ?_⟩, ⟨[], ?_⟩⟩
      · simp [appValidateLoop, hf]
      · simp [validateAndWarn, hf]
    · have hrest : ∃ g, g ∈ rest ∧ 52428800 < g.size := by
        obtain ⟨g, hg, hsz⟩ := h
        rcases List.mem_cons.mp hg with rfl | hg'
        · exact absurd (by omega : g.size > 50 * 1024 * 1024) hf
        · exact ⟨g, hg', hsz⟩
      obtain ⟨g, hg, hsz, ⟨ws1, e1⟩, ⟨ws2, e2⟩⟩ := ih hrest
      refine ⟨g, by simp [hg], hsz, ?_, ?_⟩
      · exact ⟨(if f.size > 20 * 1024 * 1024 then [largeFileMsg f] else []) ++ ws1,
          by simp only [appValidateLoop, hf, if_false]; rw [e1]⟩
      · exact ⟨(if f.size > 20 * 1024 * 1024 then [largeFileMsg f] else []) ++ ws2,
          by simp only [validateAndWarn, hf, if_false]; rw [e2]⟩

/-! Claim theorems. -/

/-- C1: for every FileList of length N >= 1, when the run is triggered and
all OCR calls succeed, both variants issue exactly N OCR requests, one per
file, strictly sequentially in list order, and then exactly one analyze
request on the combined text. -/
theorem c1_pipeline_sequential (u : Option String) (p : String)
    (files : List UFile) (o : Nat → Response) (a : Response) (pR : String)
    (hne : files ≠ []) (hp : p ≠ "")
    (hok : ∀ i, i < files.length → resOk (o i) = true) :
    ∃ combined : String,
      (runApp u files o a pR).requests =
        files.map (fun f => Request.ocr (jsUndef u ++ "/api/ocr") f.name) ++
          [Request.analyze (jsUndef u ++ "/api/analyze") combined] ∧
      (runP0 (some p) files o a pR).requests =
        files.map (fun f => Request.ocr (p ++ "/api/ocr") f.name) ++
          [Request.analyze (p ++ "/api/analyze") combined] := by
  refine ⟨String.intercalate "\n\n" (ocrBlocks o files 0), ?_, ?_⟩
  · exact runApp_requests_ok u files o a pR hne hok
  · have := runP0_requests_ok (some p) files o a pR (by simp [apiTruthy, hp]) hne hok
    simpa [jsUndef] using this

/-- Witness for C1: a one-file run with a 2xx OCR response. -/
theorem c1_pipeline_sequential_witness :
    ∃ combined : String,
      (runApp (some "http://x") [cfile] (fun _ => respFoo) respReport "").requests =
        [cfile].map (fun f => Request.ocr (jsUndef (some "http://x") ++ "/api/ocr") f.name) ++
          [Request.analyze (jsUndef (some "http://x") ++ "/api/analyze") combined] ∧
      (runP0 (some "http://x") [cfile] (fun _ => respFoo) respReport "").requests =
        [cfile].map (fun f => Request.ocr ("http://x" ++ "/api/ocr") f.name) ++
          [Request.analyze ("http://x" ++ "/api/analyze") combined] :=
  c1_pipeline_sequential (some "http://x") "http://x" [cfile] (fun _ => respFoo)
    respReport "" (List.cons_ne_nil _ _) (by decide) (fun _ _ => rfl)

/-- C2: if the k-th OCR call fails with a non-2xx status after the earlier
ones succeeded, OCR calls k+1..N are never issued, the analyze call is
never issued, the run ends failed with ErrorMessage set, and Report
remains empty, in both variants.  (The claim's 1-based k is the 0-based
k here plus one.) -/
theorem c2_ocr_failure_aborts (u : Option String) (p : String)
    (files : List UFile) (o : Nat → Response) (a : Response) (pR : String)
    (k : Nat) (hp : p ≠ "") (hk : k < files.length)
    (hprev : ∀ j, j < k → resOk (o j) = true)
    (hfail : resOk (o k) = false) :
    runApp u files o a pR =
      ⟨(files.take (k + 1)).map (fun f => Request.ocr (jsUndef u ++ "/api/ocr") f.name),
        "", ocrErrApp (o k)⟩ ∧
    ocrErrApp (o k) ≠ "" ∧
    runP0 (some p) files o a pR =
      ⟨(files.take (k + 1)).map (fun f => Request.ocr (p ++ "/api/ocr") f.name),
        "", "We encountered a temporary processing issue. Please try again."⟩ := by
  refine ⟨runApp_fail_outcome u files o a pR k hk hprev hfail,
    ocrErrApp_ne_empty _, ?_⟩
  have := runP0_fail_outcome (some p) files o a pR k (by simp [apiTruthy, hp])
    hk hprev hfail
  simpa [jsUndef] using this

/-- Witness for C2: a two-file run whose second OCR response is a 500. -/
theorem c2_ocr_failure_aborts_witness :
    runApp (some "u") [UFile.mk "A" 5, UFile.mk "B" 5]
        (fun i => if i = 0 then respFoo else respFail) respReport "" =
      ⟨([UFile.mk "A" 5, UFile.mk "B" 5].take 2).map
          (fun f => Request.ocr (jsUndef (some "u") ++ "/api/ocr") f.name),
        "", ocrErrApp ((fun i => if i = 0 then respFoo else respFail) 1)⟩ ∧
    ocrErrApp ((fun i => if i = 0 then respFoo else respFail) 1) ≠ "" ∧
    runP0 (some "u") [UFile.mk "A" 5, UFile.mk "B" 5]
        (fun i => if i = 0 then respFoo else respFail) respReport "" =
      ⟨([UFile.mk "A" 5, UFile.mk "B" 5].take 2).map
          (fun f => Request.ocr ("u" ++ "/api/ocr") f.name),
        "", "We encountered a temporary processing issue. Please try again."⟩ :=
  c2_ocr_failure_aborts (some "u") "u" [UFile.mk "A" 5, UFile.mk "B" 5]
    (fun i => if i = 0 then respFoo else respFail) respReport "" 1
    (by decide) (by simp)
    (by
      intro j hj
      have hj0 : j = 0 := Nat.lt_one_iff.mp hj
      subst hj0
      rfl)
    rfl

/-- C3: a candidate batch containing a file over 52,428,800 bytes is
rejected whole by intake in both variants: no file from the batch is
appended and ErrorMessage names the (first) offending file. -/
theorem c3_oversize_rejects_batch (prev : List UFile) (pe : String)
    (sel : List UFile) (h : ∃ f, f ∈ sel ∧ 52428800 < f.size) :
    ∃ g, g ∈ sel ∧ 52428800 < g.size ∧
      (handleFileSelectApp prev pe sel).files = prev ∧
      (handleFileSelectApp prev pe sel).error = oversizeMsg g ∧
      (handleFileSelectP0 prev pe sel).files = prev ∧
      (handleFileSelectP0 prev pe sel).error = oversizeMsg g := by
  obtain ⟨g, hg, hsz, ⟨ws1, e1⟩, ⟨ws2, e2⟩⟩ := loops_oversize sel h
  have hne : sel.isEmpty = false := by
    cases sel with
    | nil => simp at hg
    | cons f fs => rfl
  refine ⟨g, hg, hsz, ?_, ?_, ?_, ?_⟩ <;>
    simp [handleFileSelectApp, handleFileSelectP0, hne, e1, e2]

/-- Witness for C3: a 52,428,801-byte file rejects its batch. -/
theorem c3_oversize_rejects_batch_witness :
    ∃ g, g ∈ [UFile.mk "big.pdf" 52428801] ∧ 52428800 < g.size ∧
      (handleFileSelectApp [cfile] "" [UFile.mk "big.pdf" 52428801]).files = [cfile] ∧
      (handleFileSelectApp [cfile] "" [UFile.mk "big.pdf" 52428801]).error = oversizeMsg g ∧
      (handleFileSelectP0 [cfile] "" [UFile.mk "big.pdf" 52428801]).files = [cfile] ∧
      (handleFileSelectP0 [cfile] "" [UFile.mk "big.pdf" 52428801]).error = oversizeMsg g :=
  c3_oversize_rejects_batch [cfile] "" [UFile.mk "big.pdf" 52428801]
    ⟨UFile.mk "big.pdf" 52428801, by simp, by norm_num⟩

/-- C4 counterexample: a 2xx OCR body carrying only the alternate field
extractedText = "foo" yields the empty extraction from the code, while the
prioritized-field-list extraction the claim describes yields "foo". -/
theorem c4_counterexample :
    ocrText altBody = "" ∧ specClaimExtract altBody = "foo" ∧
      ocrText altBody ≠ specClaimExtract altBody :=
  ⟨rfl, rfl, by decide⟩

/-- C4 (amended): on a 2xx OCR response the client reads only the text
field: the extraction depends on no other field, uses a non-empty text
string directly, and yields the empty string when text is missing or is
the empty string. -/
theorem c4_text_field_only :
    (∀ d1 d2 : Json, getField d1 "text" = getField d2 "text" →
        ocrText d1 = ocrText d2) ∧
    (∀ (d : Json) (s : String), getField d "text" = some (Json.str s) →
        s ≠ "" → ocrText d = s) ∧
    (∀ d : Json, getField d "text" = none → ocrText d = "") ∧
    (∀ d : Json, getField d "text" = some (Json.str "") → ocrText d = "") := by
  refine ⟨?_, ?_, ?_, ?_⟩
  · intro d1 d2 h
    unfold ocrText
    rw [h]
  · intro d s h hs
    simp [ocrText, h, jsOrEmptyStr, jsTruthy, hs, jsTemplate]
  · intro d h
    simp [ocrText, h, jsOrEmptyStr, jsTemplate]
  · intro d h
    simp [ocrText, h, jsOrEmptyStr, jsTruthy, jsTemplate]

/-- Witness for C4 (amended): a present non-empty text field is used, a
missing one yields the empty string. -/
theorem c4_text_field_only_witness :
    ocrText (Json.obj [("text", Json.str "hello")]) = "hello" ∧
    ocrText (Json.obj [("other", Json.num 1)]) = "" :=
  ⟨c4_text_field_only.2.1 (Json.obj [("text", Json.str "hello")]) "hello" rfl
      (by decide),
    c4_text_field_only.2.2.1 (Json.obj [("other", Json.num 1)]) rfl⟩

set_option maxRecDepth 8192 in
/-- C5 counterexample: App.jsx embeds the full 600-character plain-text
body in the run's error message, exceeding the claimed 400-character
truncation. -/
theorem c5_counterexample :
    (runApp (some "u") [cfile] (fun _ => respFailLong) respReport "").error =
      "OCR erro (500): " ++ longBody ∧
    400 < (runApp (some "u") [cfile] (fun _ => respFailLong) respReport "").error.length := by
  have h1 : (runApp (some "u") [cfile] (fun _ => respFailLong) respReport "").error
      = "OCR erro (500): " ++ longBody := rfl
  refine ⟨h1, ?_⟩
  rw [h1, String.length_append]
  have h2 : longBody.length = 600 := rfl
  have h3 : ("OCR erro (500): ").length = 16 := rfl
  omega

/-- C5 (amended): on a non-2xx response from either endpoint the thrown
message embeds the numeric status code and a rendering of the body;
part_000 truncates that rendering to at most 400 characters for plain-text
bodies and at most 900 for pretty-printed JSON bodies, while App.jsx
embeds the full untruncated body text. -/
theorem c5_error_truncation :
    (∀ f r, resOk r = false →
        ocrFileApp f r =
          .error ("OCR erro (" ++ toString r.status ++ "): " ++ r.bodyText)) ∧
    (∀ r, resOk r = false →
        analyzeTextApp r =
          .error ("Analyze erro (" ++ toString r.status ++ "): " ++ r.bodyText)) ∧
    (∀ f r, resOk r = false → ∃ d,
        ocrFileP0 f r =
          .error ("OCR error (" ++ toString r.status ++ "): " ++ d) ∧
        d.length ≤ 900 ∧
        (strIncludes r.contentType "application/json" = false → d.length ≤ 400)) ∧
    (∀ r, resOk r = false → ∃ d,
        analyzeTextP0 r =
          .error ("Analyze error (" ++ toString r.status ++ "): " ++ d) ∧
        d.length ≤ 900 ∧
        (strIncludes r.contentType "application/json" = false → d.length ≤ 400)) := by
  have hbound : ∀ r : Response, (errDetails r).length ≤ 900 ∧
      (strIncludes r.contentType "application/json" = false →
        (errDetails r).length ≤ 400) := by
    intro r
    unfold errDetails
    by_cases hct : strIncludes r.contentType "application/json" = true
    · simp only [hct, if_true]
      exact ⟨jsSlice_length_le _ 900, fun hf => Bool.noConfusion hf⟩
    · have hct' : strIncludes r.contentType "application/json" = false :=
        Bool.eq_false_iff.mpr hct
      simp only [hct', Bool.false_eq_true, if_false]
      exact ⟨Nat.le_trans (jsSlice_length_le _ 400) (by omega),
        fun _ => jsSlice_length_le _ 400⟩
  refine ⟨?_, ?_, ?_, ?_⟩
  · intro f r h
    simp [ocrFileApp, h, ocrErrApp]
  · intro r h
    simp [analyzeTextApp, h, analyzeErrApp]
  · intro f r h
    exact ⟨errDetails r, by simp [ocrFileP0, h, ocrErrP0], hbound r⟩
  · intro r h
    exact ⟨errDetails r, by simp [analyzeTextP0, h, analyzeErrP0], hbound r⟩

/-- Witness for C5 (amended): the 500 plain-text response produces the
status-bearing messages in both variants, truncated in part_000. -/
theorem c5_error_truncation_witness :
    ocrFileApp cfile respFail =
      .error ("OCR erro (" ++ toString respFail.status ++ "): " ++ respFail.bodyText) ∧
    ∃ d, ocrFileP0 cfile respFail =
        .error ("OCR error (" ++ toString respFail.status ++ "): " ++ d) ∧
      d.length ≤ 900 ∧
      (strIncludes respFail.contentType "application/json" = false →
        d.length ≤ 400) :=
  ⟨c5_error_truncation.1 cfile respFail rfl,
    c5_error_truncation.2.2.1 cfile respFail rfl⟩

/-- C6: with two files named A and B whose OCR calls succeed with texts
foo and bar, the combined text sent to the analyze endpoint is exactly
"Document: A\n\nfoo\n\n\nDocument: B\n\nbar\n": per-file blocks of a
header line, a blank line, the text and a trailing newline, joined with a
blank line, in file order, in both variants. -/
theorem c6_combined_format :
    (runApp (some "u") [UFile.mk "A" 10485760, UFile.mk "B" 15728640]
        (fun k => if k = 0 then respFoo else respBar) respReport "").requests =
      [Request.ocr "u/api/ocr" "A", Request.ocr "u/api/ocr" "B",
        Request.analyze "u/api/analyze"
          "Document: A\n\nfoo\n\n\nDocument: B\n\nbar\n"] ∧
    (runP0 (some "u") [UFile.mk "A" 10485760, UFile.mk "B" 15728640]
        (fun k => if k = 0 then respFoo else respBar) respReport "").requests =
      [Request.ocr "u/api/ocr" "A", Request.ocr "u/api/ocr" "B",
        Request.analyze "u/api/analyze"
          "Document: A\n\nfoo\n\n\nDocument: B\n\nbar\n"] :=
  ⟨rfl, rfl⟩

/-- C7 counterexample: App.jsx performs no configuration check: with
API_URL unset and one staged file, the run issues network calls (to the
"undefined"-prefixed URLs) and completes without any configuration
error. -/
theorem c7_counterexample :
    (runApp none [cfile] (fun _ => respFoo) respReport "").requests =
      [Request.ocr "undefined/api/ocr" "a.pdf",
        Request.analyze "undefined/api/analyze" "Document: a.pdf\n\nfoo\n"] ∧
    (runApp none [cfile] (fun _ => respFoo) respReport "").error = "" :=
  ⟨rfl, rfl⟩

/-- C7 (amended): triggering the run with an empty FileList fails
immediately with the empty-list message and no network calls in both
variants; the configuration check exists only in the part_000 variant,
which fails with a configuration error and no network calls when API_URL
is unset or empty, while App.jsx proceeds regardless. -/
theorem c7_preconditions (o : Nat → Response) (a : Response) (pR : String) :
    (∀ u, runApp u [] o a pR = ⟨[], pR, "Please upload at least one file"⟩) ∧
    (∀ u files, apiTruthy u = false →
        runP0 u files o a pR =
          ⟨[], pR, "Configuration error: missing VITE_API_URL."⟩) ∧
    (∀ u, apiTruthy u = true →
        runP0 u [] o a pR = ⟨[], pR, "Please upload at least one PDF file."⟩) := by
  refine ⟨?_, ?_, ?_⟩
  · intro u
    simp [runApp]
  · intro u files h
    simp [runP0, h]
  · intro u h
    simp [runP0, h]

/-- Witness for C7 (amended): concrete empty-list and unconfigured runs. -/
theorem c7_preconditions_witness :
    runApp (some "u") [] (fun _ => respFoo) respReport "" =
      ⟨[], "", "Please upload at least one file"⟩ ∧
    runP0 none [cfile] (fun _ => respFoo) respReport "" =
      ⟨[], "", "Configuration error: missing VITE_API_URL."⟩ ∧
    runP0 (some "u") [] (fun _ => respFoo) respReport "" =
      ⟨[], "", "Please upload at least one PDF file."⟩ :=
  ⟨(c7_preconditions (fun _ => respFoo) respReport "").1 (some "u"),
    (c7_preconditions (fun _ => respFoo) respReport "").2.1 none [cfile] rfl,
    (c7_preconditions (fun _ => respFoo) respReport "").2.2 (some "u") rfl⟩

/-- C8: an accepted batch (every file at most 50MB) is appended whole with
the error cleared, and the alerts fired are exactly one warning per file
over 20,971,520 bytes, in batch order; files at or below the soft limit
fire none, in both variants. -/
theorem c8_soft_limit_warnings (prev : List UFile) (pe : String)
    (sel : List UFile) (hne : sel ≠ [])
    (hall : ∀ f ∈ sel, f.size ≤ 52428800) :
    handleFileSelectApp prev pe sel =
      ⟨prev ++ sel, "",
        (sel.filter (fun f => decide (20971520 < f.size))).map largeFileMsg⟩ ∧
    handleFileSelectP0 prev pe sel =
      ⟨prev ++ sel, "",
        (sel.filter (fun f => decide (20971520 < f.size))).map largeFileMsg⟩ := by
  obtain ⟨h1, h2⟩ := loops_accept sel hall
  have hne' : sel.isEmpty = false := by
    cases sel with
    | nil => exact absurd rfl hne
    | cons f fs => rfl
  constructor
  · simp [handleFileSelectApp, hne', h1]
  · simp [handleFileSelectP0, hne', h2]

/-- Witness for C8: a 100-byte file is accepted silently while a
30,000,000-byte file is accepted with exactly one warning. -/
theorem c8_soft_limit_warnings_witness :
    handleFileSelectApp [] "" [UFile.mk "small.pdf" 100, UFile.mk "large.pdf" 30000000] =
      ⟨[] ++ [UFile.mk "small.pdf" 100, UFile.mk "large.pdf" 30000000], "",
        ([UFile.mk "small.pdf" 100, UFile.mk "large.pdf" 30000000].filter
          (fun f => decide (20971520 < f.size))).map largeFileMsg⟩ ∧
    handleFileSelectP0 [] "" [UFile.mk "small.pdf" 100, UFile.mk "large.pdf" 30000000] =
      ⟨[] ++ [UFile.mk "small.pdf" 100, UFile.mk "large.pdf" 30000000], "",
        ([UFile.mk "small.pdf" 100, UFile.mk "large.pdf" 30000000].filter
          (fun f => decide (20971520 < f.size))).map largeFileMsg⟩ :=
  c8_soft_limit_warnings [] "" [UFile.mk "small.pdf" 100, UFile.mk "large.pdf" 30000000]
    (List.cons_ne_nil _ _)
    (by
      intro f hf
      simp at hf
      rcases hf with rfl | rfl <;> decide)

/-- C9: a 2xx OCR response whose JSON text field is missing or empty does
not abort the run: ocrFile yields the header-only block with no body text
in both variants, and a two-file run whose first extraction is empty still
issues the second OCR call and the analyze call on the concatenation. -/
theorem c9_empty_text_continues :
    (∀ (f : UFile) (r : Response), resOk r = true →
        (getField r.bodyJson "text" = none ∨
          getField r.bodyJson "text" = some (Json.str "")) →
        ocrFileApp f r = .ok ("Document: " ++ f.name ++ "\n\n\n") ∧
        ocrFileP0 f r = .ok ("Document: " ++ f.name ++ "\n\n\n")) ∧
    (runApp (some "u") [UFile.mk "A" 5, UFile.mk "B" 5]
        (fun k => if k = 0 then respEmptyObj else respBar) respReport "").requests =
      [Request.ocr "u/api/ocr" "A", Request.ocr "u/api/ocr" "B",
        Request.analyze "u/api/analyze"
          "Document: A\n\n\n\n\nDocument: B\n\nbar\n"] ∧
    (runP0 (some "u") [UFile.mk "A" 5, UFile.mk "B" 5]
        (fun k => if k = 0 then respEmptyObj else respBar) respReport "").requests =
      [Request.ocr "u/api/ocr" "A", Request.ocr "u/api/ocr" "B",
        Request.analyze "u/api/analyze"
          "Document: A\n\n\n\n\nDocument: B\n\nbar\n"] := by
  refine ⟨?_, rfl, rfl⟩
  intro f r hok htext
  have hempty : ocrText r.bodyJson = "" := by
    unfold ocrText
    rcases htext with h' | h' <;> simp [h', jsOrEmptyStr, jsTruthy, jsTemplate]
  have hblock : docBlock f r = "Document: " ++ f.name ++ "\n\n\n" := by
    unfold docBlock
    rw [hempty, String.append_empty, String.append_assoc]
    rfl
  constructor <;> simp [ocrFileApp, ocrFileP0, hok, hblock]

/-- Witness for C9: the empty-object 2xx response yields the header-only
block. -/
theorem c9_empty_text_continues_witness :
    ocrFileApp cfile respEmptyObj = .ok ("Document: " ++ cfile.name ++ "\n\n\n") ∧
    ocrFileP0 cfile respEmptyObj = .ok ("Document: " ++ cfile.name ++ "\n\n\n") :=
  c9_empty_text_continues.1 cfile respEmptyObj rfl (Or.inl rfl)

/-- C10: when the analyze response is 2xx and its report field is present
but falsy (such as the empty string), Report is set to the pretty-printed
rendering of the whole JSON body rather than to the empty report string;
the report value is used directly exactly when it is a non-empty
string. -/
theorem c10_report_fallback :
    (∀ (r : Response) (v : Json), resOk r = true →
        getField r.bodyJson "report" = some v → jsTruthy v = false →
        analyzeTextApp r = .ok (jsonStringifyPretty r.bodyJson) ∧
        analyzeTextP0 r = .ok (jsonStringifyPretty r.bodyJson)) ∧
    (∀ (r : Response) (s : String), resOk r = true →
        getField r.bodyJson "report" = some (Json.str s) → s ≠ "" →
        analyzeTextApp r = .ok s ∧ analyzeTextP0 r = .ok s) := by
  constructor
  · intro r v hok hget hfalsy
    constructor <;>
      simp [analyzeTextApp, analyzeTextP0, hok, analyzeValue, hget, hfalsy]
  · intro r s hok hget hs
    constructor <;>
      simp [analyzeTextApp, analyzeTextP0, hok, analyzeValue, hget, jsTruthy,
        hs, jsTemplate]

/-- Witness for C10: the empty-report response falls back to the
pretty-printed body, and a non-empty report is used verbatim. -/
theorem c10_report_fallback_witness :
    (analyzeTextApp respReportEmpty =
        .ok (jsonStringifyPretty respReportEmpty.bodyJson) ∧
      analyzeTextP0 respReportEmpty =
        .ok (jsonStringifyPretty respReportEmpty.bodyJson)) ∧
    jsonStringifyPretty respReportEmpty.bodyJson = "\x7b\n  \"report\": \"\"\n\x7d" ∧
    (analyzeTextApp respReport = .ok "ok" ∧ analyzeTextP0 respReport = .ok "ok") :=
  ⟨c10_report_fallback.1 respReportEmpty (Json.str "") rfl rfl rfl, rfl,
    c10_report_fallback.2 respReport "ok" rfl rfl (by decide)⟩

end FertilityFrontend
